import Mathlib

/-!
Verification development for the `seat_liberator` repository
(`src/functions.py`, `src/main.py`).

The Python source is shallowly embedded: dict-shaped JSON payloads become
structures with `Option` fields (a JSON `null` value and an absent key are
conflated, matching how the source only ever reads them through `.get` with
defaults), the HTTP layer becomes an explicit server / environment of lookup
functions, and the thread-pool fan-out becomes an explicit completion-order
parameter.  Strings are modelled over the Latin-1 fragment of Unicode: every
character classification function below (`pyIsSpace`, `pyIsDigitChar`,
`pyLowerChar`) agrees with its Python counterpart on every Latin-1 code point.
-/

/-- Models Python `str.isspace` / the `\s` class of `re` on Latin-1 code
points: space, `\t`..`\r` (0x09-0x0d), the separators 0x1c-0x1f, NEL (0x85)
and NBSP (0xa0).  (Python additionally accepts non-Latin-1 Unicode spaces.) -/
def pyIsSpace (c : Char) : Bool :=
  c.toNat = 32 || (9 ≤ c.toNat && c.toNat ≤ 13) ||
    (28 ≤ c.toNat && c.toNat ≤ 31) || c.toNat = 133 || c.toNat = 160

/-- A separator character of the pattern `[,\s]+` used by `parse_course_ids`. -/
def sepChar (c : Char) : Bool :=
  c = ',' || pyIsSpace c

/-- Models Python `str.strip()` (restricted to Latin-1 whitespace). -/
def pyStrip (s : String) : String :=
  String.mk (((s.data.dropWhile pyIsSpace).reverse.dropWhile pyIsSpace).reverse)

/-- Models Python `str.lower` on the ASCII fragment.  (Python also lowers
non-ASCII letters; no comparison in the source involves any.) -/
def pyLowerChar (c : Char) : Char :=
  Char.toLower c

/-- Models Python `str.lower` character-by-character. -/
def pyLower (s : String) : String :=
  String.mk (s.data.map pyLowerChar)

/-- Models Python `str.isdigit` on one Latin-1 code point: the ASCII digits
`0`-`9` plus the superscript digits `¹` (U+00B9), `²` (U+00B2), `³` (U+00B3),
which Python classifies as digits (`Numeric_Type=Digit`).  These four ranges
are exactly the Latin-1 characters Python's `str.isdigit` accepts; further
Unicode digit blocks lie outside the modelled fragment. -/
def pyIsDigitChar (c : Char) : Bool :=
  c.isDigit || c = '¹' || c = '²' || c = '³'

/-- Models Python `str.isdigit`: nonempty and every character a digit. -/
def pyIsDigit (s : String) : Bool :=
  !s.isEmpty && s.data.all pyIsDigitChar

/-- The spec's acceptance rule for a course-id token: the regex `^[0-9]+$`. -/
def matchesAsciiDigits (s : String) : Bool :=
  !s.isEmpty && s.data.all Char.isDigit

/-- Base-10 value of a digit list, most significant first. -/
def natOfDigits : List Char → Nat → Nat
  | [], acc => acc
  | c :: rest, acc => natOfDigits rest (acc * 10 + (c.toNat - 48))

/-- Models Python `int(s)` on the digit-only strings the program feeds it
(guaranteed by `parse_course_ids`, leading zeros included); other strings
would raise `ValueError` in Python and are outside the modelled domain. -/
def pyInt (s : String) : Int :=
  natOfDigits s.data 0

mutual

/-- `re.split(r"[,\s]+", s)`, scanning inside a token (`cur` holds the
current token's characters in reverse). -/
def reSplitTok : List Char → List Char → List String
  | [], cur => [String.mk cur.reverse]
  | c :: rest, cur =>
    if sepChar c then String.mk cur.reverse :: reSplitSkip rest
    else reSplitTok rest (c :: cur)

/-- `re.split(r"[,\s]+", s)`, scanning inside a separator run. -/
def reSplitSkip : List Char → List String
  | [] => [""]
  | c :: rest =>
    if sepChar c then reSplitSkip rest
    else reSplitTok rest [c]

end

/-- Models `re.split(r"[,\s]+", s)`: tokens between maximal separator runs,
with an empty token at an end that starts or finishes with a separator. -/
def reSplitSeps (s : String) : List String :=
  reSplitTok s.data []

/-- The token list `parse_course_ids` filters: `re.split` applied to the
stripped input (empty input handled before splitting, as in the source). -/
def courseIdTokens (raw_text : String) : List String :=
  if raw_text = "" then [] else reSplitSeps (pyStrip raw_text)

/-- `functions.parse_course_ids`: split the stripped input on `[,\s]+` and
keep the tokens accepted by `str.isdigit`. -/
def parse_course_ids (raw_text : String) : List String :=
  if raw_text = "" then []
  else (reSplitSeps (pyStrip raw_text)).filter pyIsDigit

example : parse_course_ids "12345, 67890\n112233\n445566 778899" =
    ["12345", "67890", "112233", "445566", "778899"] := by decide

example : parse_course_ids " 10,,ab3 ,7 " = ["10", "7"] := by decide

example : parse_course_ids "" = [] := by decide

example : parse_course_ids "²" = ["²"] := by decide

/-! ## The paginated fetcher (`functions.fetch_canvas_api`) -/

/-- A decoded JSON value (the result of `response.json()`). -/
inductive JVal where
  | null
  | bool (b : Bool)
  | num (n : Int)
  | str (s : String)
  | arr (xs : List JVal)
  | obj (fields : List (String × JVal))

/-- One HTTP response: status code, decoded JSON body, and the URL of the
`next` link relation when the `Link` header carries one
(`response.links.get("next")`). -/
structure Resp where
  status : Nat
  body : JVal
  linkNext : Option String

/-- The remote server, as seen through `session.get(url, params)`.  The
pagination loop issues its requests without query parameters, exactly as the
source does (`session.get(url)`). -/
def Server : Type :=
  String → List (String × String) → Resp

/-- The ways one logical fetch can fail to produce a value:
`raise_for_status` raising on a 4xx/5xx page, `results.extend` applied to a
non-iterable page body (Python `TypeError`), or the embedding's fuel running
out (the source's `while` loop has no bound). -/
inductive FetchErr where
  | httpError (status : Nat)
  | typeError
  | outOfFuel
deriving DecidableEq

/-- Models `results.extend(response.json())` with Python iteration semantics:
a list extends element-wise, a dict extends with its keys, a string extends
with its one-character substrings, and any other value raises `TypeError`. -/
def pyExtend (acc : List JVal) : JVal → Except FetchErr (List JVal)
  | .arr xs => .ok (acc ++ xs)
  | .obj fields => .ok (acc ++ fields.map (fun f => .str f.1))
  | .str s => .ok (acc ++ s.data.map (fun c => .str (String.mk [c])))
  | _ => .error .typeError

/-- The `while response.links.get("next")` loop of `fetch_canvas_api`:
follow the `next` link of the current response, raise for a 4xx/5xx status,
extend the accumulated results with the new page's body, repeat.  `fuel`
bounds the number of link-follows. -/
def fetchLoop (server : Server) : Nat → Resp → List JVal →
    Except FetchErr (List JVal)
  | 0, _, _ => .error .outOfFuel
  | fuel + 1, resp, acc =>
    match resp.linkNext with
    | none => .ok acc
    | some url =>
      let r2 := server url []
      if 400 ≤ r2.status ∧ r2.status < 600 then .error (.httpError r2.status)
      else
        match pyExtend acc r2.body with
        | .error e => .error e
        | .ok acc2 => fetchLoop server fuel r2 acc2

/-- `functions.fetch_canvas_api`: one GET against the endpoint; a 404 maps
to the distinguished not-found marker (`none`, Python `None`); any other
4xx/5xx raises; a non-array body is returned as-is; an array body is the
first page of a pagination chain followed by `fetchLoop`. -/
def fetch_canvas_api (server : Server) (fuel : Nat) (endpoint : String)
    (params : List (String × String)) : Except FetchErr (Option JVal) :=
  let resp := server endpoint params
  if resp.status = 404 then .ok none
  else if 400 ≤ resp.status ∧ resp.status < 600 then
    .error (.httpError resp.status)
  else
    match resp.body with
    | .arr xs => (fetchLoop server fuel resp xs).map (fun rs => some (.arr rs))
    | v => .ok (some v)

/-- `Chain server resp pages` holds when `resp` (already received) carries
the array body `pages.head`, and following the server's `next` links from
`resp` yields, page by page, the remaining entries of `pages`, every followed
page answering with a non-error status and an array body. -/
inductive Chain (server : Server) : Resp → List (List JVal) → Prop where
  | last (resp : Resp) (xs : List JVal) :
      resp.body = .arr xs → resp.linkNext = none → Chain server resp [xs]
  | step (resp : Resp) (xs : List JVal) (url : String)
      (rest : List (List JVal)) :
      resp.body = .arr xs → resp.linkNext = some url →
      ¬(400 ≤ (server url []).status ∧ (server url []).status < 600) →
      Chain server (server url []) rest →
      Chain server resp (xs :: rest)

/-! ## Domain records (the dict shapes `main.py` reads) -/

/-- The user record Canvas embeds in an enrollment when `include[]=user` is
requested; every key the source reads, as an optional field. -/
structure User where
  id : Option Int
  name : Option String
  login_id : Option String
  email : Option String
  sis_user_id : Option String
deriving DecidableEq

/-- An enrollment record; every key the source reads, as an optional field. -/
structure Enrollment where
  type : Option String
  role : Option String
  enrollment_state : Option String
  user : Option User
  course_section_id : Option Int
  id : Option Int
  created_at : Option String
  updated_at : Option String
  last_activity_at : Option String
deriving DecidableEq

/-- A course record (`/courses/{id}?include[]=account`). -/
structure Course where
  name : Option String
  account_id : Option Int
deriving DecidableEq

/-- An account record (`/accounts/{id}`). -/
structure Account where
  name : Option String
deriving DecidableEq

/-- The four Canvas accessors of `main.py` (`get_course`, `get_account`,
`get_enrollments`, `get_enrollments_with_user`), modelled as an environment
of lookup functions; `none` is the fetcher's 404 marker. -/
structure Env where
  getCourse : String → Option Course
  getAccount : Int → Option Account
  getEnrollments : String → Option (List Enrollment)
  getEnrollmentsWithUser : String → Option (List Enrollment)

/-- Python truthiness of an optional string (`None` and `""` are falsy). -/
def truthyS : Option String → Bool
  | none => false
  | some s => s ≠ ""

/-- `enr.get("role") or enr_type or "Otro"`: the role label used by
`summarize_course` and `get_detailed_student_info`. -/
def roleName (e : Enrollment) : String :=
  if truthyS e.role then e.role.getD ""
  else if truthyS e.type then e.type.getD ""
  else "Otro"

/-- `e.get("role") or etype`: the role column of a detail row (no literal
fallback here; a falsy `role` yields `etype` whatever it is). -/
def pyOrOS (a b : Option String) : Option String :=
  if truthyS a then a else b

/-- `user.get("name", "Sin nombre")` after `user = enr.get("user", {})`. -/
def displayName (e : Enrollment) : String :=
  (e.user.bind User.name).getD "Sin nombre"

/-- `counter[role] = counter.get(role, 0) + 1` on a Python dict, kept as an
association list in insertion order: an existing key is bumped in place, a
new key is appended at the end. -/
def incrRole (k : String) : List (String × Nat) → List (String × Nat)
  | [] => [(k, 1)]
  | (k2, v) :: rest =>
    if k2 = k then (k2, v + 1) :: rest else (k2, v) :: incrRole k rest

/-- The sum of a role counter's counts. -/
def sumCounts (l : List (String × Nat)) : Nat :=
  (l.map Prod.snd).sum

/-- The sort key Python's `sorted` uses on `counter.items()`: tuple
comparison, key first then count. -/
def pairLex (p : String × Nat) : Lex (String × Nat) :=
  toLex p

/-- `" · ".join(f"{k}: {v}" for k, v in sorted(counter.items()))` with the
trailing `if counter else ""`. -/
def renderRoles (l : List (String × Nat)) : String :=
  if l.isEmpty then ""
  else
    String.intercalate " · "
      ((l.insertionSort (fun p q => pairLex p ≤ pairLex q)).map
        (fun p => p.1 ++ ": " ++ toString p.2))

/-- The three state counters and the role counter `summarize_course`
accumulates over the enrollment list. -/
structure SummState where
  active : Nat
  completed : Nat
  other : Nat
  roles : List (String × Nat)
deriving DecidableEq

/-- Whether `summarize_course` skips an enrollment: display name lowercases
to `test student`, or the type is `StudentViewEnrollment`. -/
def summExcluded (e : Enrollment) : Bool :=
  pyLower (displayName e) = "test student" ||
    e.type = some "StudentViewEnrollment"

/-- One iteration of the classification loop of `summarize_course`. -/
def summStep (s : SummState) (e : Enrollment) : SummState :=
  if summExcluded e then s
  else if e.type = some "StudentEnrollment" then
    if e.enrollment_state = some "active" then
      { s with active := s.active + 1 }
    else if e.enrollment_state = some "completed" then
      { s with completed := s.completed + 1 }
    else { s with other := s.other + 1 }
  else { s with roles := incrRole (roleName e) s.roles }

/-- The classification loop of `summarize_course` over the whole list. -/
def summarizeEnrollments (enrollments : List Enrollment) : SummState :=
  enrollments.foldl summStep ⟨0, 0, 0, []⟩

/-- A summary row.  The Python dict keys `"Otros Estados"` and
`"Otros Roles"` are the fields `otrosEstados` and `otrosRoles`. -/
structure SummaryRow where
  id : Int
  curso : String
  diplomado : String
  activos : Nat
  completados : Nat
  otrosEstados : Nat
  otrosRoles : String
deriving DecidableEq

/-- The `account_name` resolution shared by `summarize_course` and
`get_detailed_student_info`: empty unless the course carries a truthy
`account_id` whose account lookup succeeds (`acc.get("name", ...)` then
defaulting to `Account {id}`). -/
def resolveAccountName (env : Env) (course : Course) : String :=
  match course.account_id with
  | none => ""
  | some aid =>
    if aid = 0 then ""
    else
      match env.getAccount aid with
      | none => ""
      | some acc => acc.name.getD ("Account " ++ toString aid)

/-- `main.summarize_course`. -/
def summarize_course (env : Env) (course_id : String) : SummaryRow :=
  match env.getCourse course_id with
  | none =>
    { id := pyInt course_id, curso := "NO ENCONTRADO", diplomado := ""
      activos := 0, completados := 0, otrosEstados := 0, otrosRoles := "" }
  | some course =>
    let course_name := course.name.getD ("Curso " ++ course_id)
    let account_name := resolveAccountName env course
    let enrollments := (env.getEnrollments course_id).getD []
    let st := summarizeEnrollments enrollments
    { id := pyInt course_id, curso := course_name, diplomado := account_name
      activos := st.active, completados := st.completed
      otrosEstados := st.other, otrosRoles := renderRoles st.roles }

/-! ## `main.get_detailed_student_info` -/

/-- A per-student record of the detailed view.  The Python dict key
`"User ID"` is the field `userId`; its value `user.get("id", "Sin ID")` is an
int or the sentinel string, modelled as `Option Int` with `none` standing for
`"Sin ID"`. -/
structure StudentInfo where
  nombre : String
  email : String
  userId : Option Int
  estado : Option String
  rol : String
deriving DecidableEq

/-- The four ordered buckets `get_detailed_student_info` fills. -/
structure Buckets where
  active : List StudentInfo
  completed : List StudentInfo
  otherStates : List StudentInfo
  otherRoles : List StudentInfo
deriving DecidableEq

/-- Whether `get_detailed_student_info` skips an enrollment
(`user_name.strip().lower() == "test student"` or `StudentViewEnrollment`). -/
def detailedExcluded (e : Enrollment) : Bool :=
  pyLower (pyStrip (displayName e)) = "test student" ||
    e.type = some "StudentViewEnrollment"

/-- The `student_info` dict built for one enrollment: name defaulted to
`Sin nombre`, email from `login_id` then `email` then `Sin email`. -/
def studentInfoOf (e : Enrollment) : StudentInfo :=
  { nombre := displayName e
    email := (e.user.bind User.login_id).getD
      ((e.user.bind User.email).getD "Sin email")
    userId := e.user.bind User.id
    estado := e.enrollment_state
    rol := roleName e }

/-- The bucket-filling loop of `get_detailed_student_info`, preserving the
API response order inside each bucket. -/
def detailedBuckets : List Enrollment → Buckets
  | [] => ⟨[], [], [], []⟩
  | e :: rest =>
    let b := detailedBuckets rest
    if detailedExcluded e then b
    else
      let info := studentInfoOf e
      if e.type = some "StudentEnrollment" then
        if e.enrollment_state = some "active" then
          { b with active := info :: b.active }
        else if e.enrollment_state = some "completed" then
          { b with completed := info :: b.completed }
        else { b with otherStates := info :: b.otherStates }
      else { b with otherRoles := info :: b.otherRoles }

/-- The per-course result of the detailed view.  The Python dict keys
`"Estudiantes Activos"`, `"Estudiantes Completados"`,
`"Estudiantes Otros Estados"`, `"Otros Roles"` are the four bucket fields. -/
structure DetailedResult where
  id : Int
  curso : String
  diplomado : String
  buckets : Buckets
deriving DecidableEq

/-- `main.get_detailed_student_info`. -/
def get_detailed_student_info (env : Env) (course_id : String) :
    DetailedResult :=
  match env.getCourse course_id with
  | none =>
    { id := pyInt course_id, curso := "NO ENCONTRADO", diplomado := ""
      buckets := ⟨[], [], [], []⟩ }
  | some course =>
    { id := pyInt course_id
      curso := course.name.getD ("Curso " ++ course_id)
      diplomado := resolveAccountName env course
      buckets :=
        detailedBuckets ((env.getEnrollmentsWithUser course_id).getD []) }

/-! ## `main.build_enrollments_detail_df` -/

/-- One row of the detail DataFrame, in the declared 15-column order. -/
structure DetailRow where
  id_curso : Int
  curso : String
  diplomado : String
  user_id : Option Int
  nombre : String
  login_id : Option String
  sis_user_id : Option String
  tipo_matricula : Option String
  rol : Option String
  estado : Option String
  seccion_id : Option Int
  enrollment_id : Option Int
  created_at : Option String
  updated_at : Option String
  last_activity_at : Option String
deriving DecidableEq

/-- The declared 15-column schema of the `Matriculas` sheet. -/
def detailCols : List String :=
  ["id_curso", "Curso", "Diplomado", "user_id", "nombre", "login_id",
   "sis_user_id", "tipo_matricula", "rol", "estado", "seccion_id",
   "enrollment_id", "created_at", "updated_at", "last_activity_at"]

/-- Whether `build_enrollments_detail_df` skips an enrollment
(`StudentViewEnrollment` or `(u.get("name") or "").strip()` lowercasing to
`test student`). -/
def detailRowExcluded (e : Enrollment) : Bool :=
  e.type = some "StudentViewEnrollment" ||
    pyLower (pyStrip ((e.user.bind User.name).getD "")) = "test student"

/-- The inner enrollment loop of `build_enrollments_detail_df` for one
course: one row per non-excluded enrollment, in response order. -/
def detailRowsFor (idCurso : Int) (cursoName diplomadoName : String) :
    List Enrollment → List DetailRow
  | [] => []
  | e :: rest =>
    if detailRowExcluded e then detailRowsFor idCurso cursoName diplomadoName rest
    else
      { id_curso := idCurso, curso := cursoName, diplomado := diplomadoName
        user_id := e.user.bind User.id
        nombre := pyStrip ((e.user.bind User.name).getD "")
        login_id := e.user.bind User.login_id
        sis_user_id := e.user.bind User.sis_user_id
        tipo_matricula := e.type
        rol := pyOrOS e.role e.type
        estado := e.enrollment_state
        seccion_id := e.course_section_id
        enrollment_id := e.id
        created_at := e.created_at
        updated_at := e.updated_at
        last_activity_at := e.last_activity_at } ::
        detailRowsFor idCurso cursoName diplomadoName rest

/-- The two within-call caches of `build_enrollments_detail_df`:
`course_cache[cid] = {name, account_id}` and `account_cache[acc_id] = name`,
kept as association lists in insertion order. -/
structure DetailCaches where
  courseCache : List (String × (String × Option Int))
  accountCache : List (Int × String)

/-- The per-course body of the `for cid in course_ids` loop: populate the
caches on a miss (the account name defaulting to `Account {id}` when the
account lookup fails, the course name to `Curso {cid}`), then append one row
per non-excluded user-expanded enrollment. -/
def detailStep (env : Env) (st : DetailCaches × List DetailRow)
    (cid : String) : DetailCaches × List DetailRow :=
  let caches := st.1
  let caches :=
    if (caches.courseCache.lookup cid).isSome then caches
    else
      let c := env.getCourse cid
      let cname := (c.bind Course.name).getD ("Curso " ++ cid)
      let accId := c.bind Course.account_id
      let courseCache := caches.courseCache ++ [(cid, (cname, accId))]
      let accountCache :=
        match accId with
        | some aid =>
          if aid ≠ 0 ∧ (caches.accountCache.lookup aid).isNone then
            caches.accountCache ++
              [(aid, ((env.getAccount aid).bind Account.name).getD
                ("Account " ++ toString aid))]
          else caches.accountCache
        | none => caches.accountCache
      ⟨courseCache, accountCache⟩
  let entry := (caches.courseCache.lookup cid).getD ("Curso " ++ cid, none)
  let diplomado :=
    match entry.2 with
    | some aid => (caches.accountCache.lookup aid).getD ""
    | none => ""
  let enrollments := (env.getEnrollmentsWithUser cid).getD []
  ⟨caches, st.2 ++ detailRowsFor (pyInt cid) entry.1 diplomado enrollments⟩

/-- The pandas sort key of `build_enrollments_detail_df`:
`["id_curso", "tipo_matricula", "estado", "nombre"]`, lexicographically,
with a missing value (`NaN`) ordered last at each level
(`WithTop`, where `none` is `⊤`). -/
def detailKey (r : DetailRow) :
    Lex (Int × Lex (WithTop String × Lex (WithTop String × String))) :=
  toLex (r.id_curso,
    toLex ((r.tipo_matricula.elim ⊤ WithTop.some : WithTop String),
      toLex ((r.estado.elim ⊤ WithTop.some : WithTop String), r.nombre)))

/-- The DataFrame `build_enrollments_detail_df` returns: the column labels,
the rows, and the row index.  `pd.DataFrame([])` has no columns and an empty
range index. -/
structure DetailDF where
  columns : List String
  rows : List DetailRow
  index : List Nat
deriving DecidableEq

/-- `main.build_enrollments_detail_df`: fold the per-course loop over the
ids threading the caches, then — when any row exists — fix the column order,
sort by `(id_curso, tipo_matricula, estado, nombre)` and renumber the index
from zero. -/
def build_enrollments_detail_df (env : Env) (course_ids : List String) :
    DetailDF :=
  let rows := (course_ids.foldl (detailStep env) (⟨[], []⟩, [])).2
  if rows.isEmpty then ⟨[], [], []⟩
  else
    let sorted := rows.insertionSort (fun r s => detailKey r ≤ detailKey s)
    ⟨detailCols, sorted, List.range sorted.length⟩

/-- A sheet of the exported workbook: column labels and rows. -/
structure MatriculasSheet where
  columns : List String
  rows : List DetailRow
deriving DecidableEq

/-- The `Matriculas` branch of the Excel export block: an empty DataFrame is
replaced by an empty frame carrying the full 15-column schema. -/
def matriculasSheet (df : DetailDF) : MatriculasSheet :=
  if df.rows.isEmpty then ⟨detailCols, []⟩ else ⟨df.columns, df.rows⟩

/-! ## The batch runners -/

/-- `main.process_courses`, with the thread pool's nondeterminism made
explicit: `completionOrder` is the order in which `as_completed` yields the
per-course futures (a permutation of the submitted ids).  The collected rows
are then sorted by `x["id"]` with Python's stable `list.sort`. -/
def process_courses (env : Env) (completionOrder : List String) :
    List SummaryRow :=
  (completionOrder.map (summarize_course env)).insertionSort
    (fun r s => r.id ≤ s.id)

/-- `main.process_detailed_courses`, same shape as `process_courses`. -/
def process_detailed_courses (env : Env) (completionOrder : List String) :
    List DetailedResult :=
  (completionOrder.map (get_detailed_student_info env)).insertionSort
    (fun r s => r.id ≤ s.id)

/-! ## Character-level helper lemmas -/

theorem pyLowerChar_of_pyIsSpace {c : Char} (h : pyIsSpace c = true) :
    pyLowerChar c = c := by
  simp only [pyIsSpace, Bool.or_eq_true, Bool.and_eq_true, decide_eq_true_eq] at h
  simp only [pyLowerChar, Char.toLower]
  rw [if_neg]
  omega

theorem pyIsSpace_t : pyIsSpace 't' = false := by decide

/-- A character that lowercases to `t` is not whitespace. -/
theorem not_space_of_lower_t {c : Char} (h : pyLowerChar c = 't') :
    pyIsSpace c = false := by
  by_contra hc
  have hsp : pyIsSpace c = true := by
    cases hpy : pyIsSpace c
    · exact absurd hpy hc
    · rfl
  have := pyLowerChar_of_pyIsSpace hsp
  rw [this] at h
  rw [h] at hsp
  exact absurd hsp (by decide)

/-- A string whose lowercasing is `test student` is untouched by `strip`. -/
theorem pyStrip_of_pyLower_test {n : String}
    (h : pyLower n = "test student") : pyStrip n = n := by
  have hd : n.data.map pyLowerChar = "test student".data := by
    have := congrArg String.data h
    simpa [pyLower] using this
  have hfront : n.data.dropWhile pyIsSpace = n.data := by
    cases hn : n.data with
    | nil => simp
    | cons c rest =>
      rw [hn] at hd
      simp only [List.map_cons] at hd
      have hd2 : pyLowerChar c :: List.map pyLowerChar rest =
          't' :: "est student".data := by rw [hd]
      have hc : pyLowerChar c = 't' := (List.cons_eq_cons.mp hd2).1
      rw [List.dropWhile_cons, if_neg (by simp [not_space_of_lower_t hc])]
  have hback : n.data.reverse.dropWhile pyIsSpace = n.data.reverse := by
    have hdr : n.data.reverse.map pyLowerChar = "test student".data.reverse := by
      rw [List.map_reverse, hd]
    cases hn : n.data.reverse with
    | nil => simp
    | cons c rest =>
      rw [hn] at hdr
      simp only [List.map_cons] at hdr
      have hdr2 : pyLowerChar c :: List.map pyLowerChar rest =
          't' :: "neduts tset".data := by rw [hdr]; decide
      have hc : pyLowerChar c = 't' := (List.cons_eq_cons.mp hdr2).1
      rw [List.dropWhile_cons, if_neg (by simp [not_space_of_lower_t hc])]
  show String.mk (((n.data.dropWhile pyIsSpace).reverse.dropWhile
      pyIsSpace).reverse) = n
  rw [hfront, hback, List.reverse_reverse]

/-! ## Exclusion lemmas (claim C2's condition) -/

/-- The exclusion condition as the spec states it: the associated user's
display name case-insensitively equals `Test Student`, or the enrollment
type is `StudentViewEnrollment`. -/
def specExcluded (e : Enrollment) : Prop :=
  (∃ n, e.user.bind User.name = some n ∧ pyLower n = "test student") ∨
    e.type = some "StudentViewEnrollment"

theorem summExcluded_of_specExcluded {e : Enrollment} (h : specExcluded e) :
    summExcluded e = true := by
  rcases h with ⟨n, hn, hlow⟩ | htype
  · simp [summExcluded, displayName, hn, hlow]
  · simp [summExcluded, htype]

theorem detailedExcluded_of_specExcluded {e : Enrollment}
    (h : specExcluded e) : detailedExcluded e = true := by
  rcases h with ⟨n, hn, hlow⟩ | htype
  · simp [detailedExcluded, displayName, hn, pyStrip_of_pyLower_test hlow, hlow]
  · simp [detailedExcluded, htype]

theorem detailRowExcluded_of_specExcluded {e : Enrollment}
    (h : specExcluded e) : detailRowExcluded e = true := by
  rcases h with ⟨n, hn, hlow⟩ | htype
  · simp [detailRowExcluded, hn, pyStrip_of_pyLower_test hlow, hlow]
  · simp [detailRowExcluded, htype]

theorem summStep_skip {e : Enrollment} (h : summExcluded e = true)
    (s : SummState) : summStep s e = s := by
  simp [summStep, h]

theorem summarizeEnrollments_skip {e : Enrollment} (h : summExcluded e = true)
    (xs ys : List Enrollment) :
    summarizeEnrollments (xs ++ e :: ys) = summarizeEnrollments (xs ++ ys) := by
  unfold summarizeEnrollments
  rw [List.foldl_append, List.foldl_append, List.foldl_cons, summStep_skip h]

theorem detailRowsFor_skip {e : Enrollment} (h : detailRowExcluded e = true)
    (idc : Int) (cn dn : String) (xs ys : List Enrollment) :
    detailRowsFor idc cn dn (xs ++ e :: ys) = detailRowsFor idc cn dn (xs ++ ys) := by
  induction xs with
  | nil => simp [detailRowsFor, h]
  | cons a xs ih =>
    simp only [List.cons_append, detailRowsFor, List.append_eq, ih]

theorem detailedBuckets_skip {e : Enrollment} (h : detailedExcluded e = true)
    (xs ys : List Enrollment) :
    detailedBuckets (xs ++ e :: ys) = detailedBuckets (xs ++ ys) := by
  induction xs with
  | nil => simp [detailedBuckets, h]
  | cons a xs ih =>
    simp only [List.cons_append, detailedBuckets, List.append_eq, ih]

/-! ## Counting invariants of the summary classification -/

/-- The count the role counter holds under key `k` (0 when absent). -/
def roleCount (k : String) : List (String × Nat) → Nat
  | [] => 0
  | (k2, v) :: rest => if k2 = k then v else roleCount k rest

theorem roleCount_incr_self (k : String) (l : List (String × Nat)) :
    roleCount k (incrRole k l) = roleCount k l + 1 := by
  induction l with
  | nil => simp [incrRole, roleCount]
  | cons p rest ih =>
    obtain ⟨k2, v⟩ := p
    by_cases h : k2 = k <;> simp [incrRole, roleCount, h, ih]

theorem roleCount_incr_other {k k2 : String} (h : k2 ≠ k)
    (l : List (String × Nat)) :
    roleCount k (incrRole k2 l) = roleCount k l := by
  induction l with
  | nil => simp [incrRole, roleCount, h]
  | cons p rest ih =>
    obtain ⟨k3, v⟩ := p
    by_cases h3 : k3 = k2
    · subst h3
      simp [incrRole, roleCount, h]
    · simp only [incrRole, if_neg h3]
      by_cases h4 : k3 = k <;> simp [roleCount, h4, ih]

theorem sumCounts_incr (k : String) (l : List (String × Nat)) :
    sumCounts (incrRole k l) = sumCounts l + 1 := by
  induction l with
  | nil => simp [incrRole, sumCounts]
  | cons p rest ih =>
    obtain ⟨k2, v⟩ := p
    by_cases h : k2 = k <;> simp [incrRole, sumCounts, h] <;>
      simp [sumCounts] at ih <;> omega

/-- A non-excluded `StudentEnrollment` in state `active`. -/
def isCountedActive (e : Enrollment) : Bool :=
  !summExcluded e && decide (e.type = some "StudentEnrollment") &&
    decide (e.enrollment_state = some "active")

/-- A non-excluded `StudentEnrollment` in state `completed`. -/
def isCountedCompleted (e : Enrollment) : Bool :=
  !summExcluded e && decide (e.type = some "StudentEnrollment") &&
    decide (e.enrollment_state = some "completed")

/-- A non-excluded `StudentEnrollment` in any state other than `active` or
`completed` (including an absent state). -/
def isCountedOther (e : Enrollment) : Bool :=
  !summExcluded e && decide (e.type = some "StudentEnrollment") &&
    !decide (e.enrollment_state = some "active") &&
    !decide (e.enrollment_state = some "completed")

/-- A non-excluded enrollment of any type other than `StudentEnrollment`
whose role label (role, else type, else `Otro`) is `r`. -/
def isCountedRole (r : String) (e : Enrollment) : Bool :=
  !summExcluded e && !decide (e.type = some "StudentEnrollment") &&
    decide (roleName e = r)

theorem summStep_active (s : SummState) (e : Enrollment) :
    (summStep s e).active = s.active + (if isCountedActive e then 1 else 0) := by
  unfold summStep isCountedActive
  by_cases hex : summExcluded e <;>
    by_cases hty : e.type = some "StudentEnrollment" <;>
      by_cases ha : e.enrollment_state = some "active" <;>
        by_cases hc : e.enrollment_state = some "completed" <;>
          simp [hex, hty, ha, hc]

theorem summStep_completed (s : SummState) (e : Enrollment) :
    (summStep s e).completed =
      s.completed + (if isCountedCompleted e then 1 else 0) := by
  unfold summStep isCountedCompleted
  by_cases hex : summExcluded e <;>
    by_cases hty : e.type = some "StudentEnrollment" <;>
      by_cases ha : e.enrollment_state = some "active" <;>
        by_cases hc : e.enrollment_state = some "completed" <;>
          simp [hex, hty, ha, hc]

theorem summStep_other (s : SummState) (e : Enrollment) :
    (summStep s e).other = s.other + (if isCountedOther e then 1 else 0) := by
  unfold summStep isCountedOther
  by_cases hex : summExcluded e <;>
    by_cases hty : e.type = some "StudentEnrollment" <;>
      by_cases ha : e.enrollment_state = some "active" <;>
        by_cases hc : e.enrollment_state = some "completed" <;>
          simp [hex, hty, ha, hc]

theorem summStep_roleCount (s : SummState) (e : Enrollment) (r : String) :
    roleCount r (summStep s e).roles =
      roleCount r s.roles + (if isCountedRole r e then 1 else 0) := by
  unfold summStep isCountedRole
  by_cases hex : summExcluded e
  · simp [hex]
  · by_cases hty : e.type = some "StudentEnrollment"
    · by_cases ha : e.enrollment_state = some "active" <;>
        by_cases hc : e.enrollment_state = some "completed" <;>
          simp [hex, hty, ha, hc]
    · by_cases hr : roleName e = r
      · subst hr
        simp [hex, hty, roleCount_incr_self]
      · simp [hex, hty, hr, roleCount_incr_other hr]

theorem summStep_total (s : SummState) (e : Enrollment) :
    (summStep s e).active + (summStep s e).completed + (summStep s e).other +
        sumCounts (summStep s e).roles =
      s.active + s.completed + s.other + sumCounts s.roles +
        (if summExcluded e then 0 else 1) := by
  unfold summStep
  by_cases hex : summExcluded e <;>
    by_cases hty : e.type = some "StudentEnrollment" <;>
      by_cases ha : e.enrollment_state = some "active" <;>
        by_cases hc : e.enrollment_state = some "completed" <;>
          simp [hex, hty, ha, hc, sumCounts_incr] <;> omega

theorem summFold_active (l : List Enrollment) : ∀ s : SummState,
    (l.foldl summStep s).active = s.active + l.countP isCountedActive := by
  induction l with
  | nil => intro s; simp
  | cons e l ih =>
    intro s
    rw [List.foldl_cons, ih, summStep_active, List.countP_cons]
    omega

theorem summFold_completed (l : List Enrollment) : ∀ s : SummState,
    (l.foldl summStep s).completed =
      s.completed + l.countP isCountedCompleted := by
  induction l with
  | nil => intro s; simp
  | cons e l ih =>
    intro s
    rw [List.foldl_cons, ih, summStep_completed, List.countP_cons]
    omega

theorem summFold_other (l : List Enrollment) : ∀ s : SummState,
    (l.foldl summStep s).other = s.other + l.countP isCountedOther := by
  induction l with
  | nil => intro s; simp
  | cons e l ih =>
    intro s
    rw [List.foldl_cons, ih, summStep_other, List.countP_cons]
    omega

theorem summFold_roleCount (l : List Enrollment) (r : String) :
    ∀ s : SummState,
    roleCount r (l.foldl summStep s).roles =
      roleCount r s.roles + l.countP (isCountedRole r) := by
  induction l with
  | nil => intro s; simp
  | cons e l ih =>
    intro s
    rw [List.foldl_cons, ih, summStep_roleCount, List.countP_cons]
    omega

theorem summFold_total (l : List Enrollment) : ∀ s : SummState,
    (l.foldl summStep s).active + (l.foldl summStep s).completed +
        (l.foldl summStep s).other + sumCounts (l.foldl summStep s).roles =
      s.active + s.completed + s.other + sumCounts s.roles +
        l.countP (fun e => !summExcluded e) := by
  induction l with
  | nil => intro s; simp
  | cons e l ih =>
    intro s
    rw [List.foldl_cons, ih, List.countP_cons]
    have := summStep_total s e
    by_cases hex : summExcluded e <;> simp [hex] at this ⊢ <;> omega

/-! ## Sort infrastructure -/

instance summaryLE_total : IsTotal SummaryRow (fun r s => r.id ≤ s.id) :=
  ⟨fun a b => Int.le_total a.id b.id⟩

instance summaryLE_trans : IsTrans SummaryRow (fun r s => r.id ≤ s.id) :=
  ⟨fun _ _ _ h1 h2 => le_trans h1 h2⟩

instance detailedLE_total : IsTotal DetailedResult (fun r s => r.id ≤ s.id) :=
  ⟨fun a b => Int.le_total a.id b.id⟩

instance detailedLE_trans : IsTrans DetailedResult (fun r s => r.id ≤ s.id) :=
  ⟨fun _ _ _ h1 h2 => le_trans h1 h2⟩

instance detailRowLE_total :
    IsTotal DetailRow (fun r s => detailKey r ≤ detailKey s) :=
  ⟨fun a b => le_total (detailKey a) (detailKey b)⟩

instance detailRowLE_trans :
    IsTrans DetailRow (fun r s => detailKey r ≤ detailKey s) :=
  ⟨fun _ _ _ h1 h2 => le_trans h1 h2⟩

/-- Pairwise non-strict sortedness plus key distinctness gives strict
sortedness. -/
theorem pairwise_lt_of_le_nodup {α β : Type} [LinearOrder β] {key : α → β}
    {l : List α} (hs : l.Pairwise (fun a b => key a ≤ key b))
    (hnd : (l.map key).Nodup) :
    l.Pairwise (fun a b => key a < key b) := by
  have hne : l.Pairwise (fun a b => key a ≠ key b) := List.pairwise_map.mp hnd
  exact (hs.and hne).imp (fun h => lt_of_le_of_ne h.1 h.2)

/-- Two stable sorts of key-distinct permutations of one another coincide. -/
theorem insertionSort_eq_of_perm_of_nodup {α β : Type} [LinearOrder β]
    (key : α → β) (l1 l2 : List α) (hp : l1.Perm l2)
    (hnd : (l1.map key).Nodup) :
    l1.insertionSort (fun a b => key a ≤ key b) =
      l2.insertionSort (fun a b => key a ≤ key b) := by
  haveI : IsTotal α (fun a b => key a ≤ key b) :=
    ⟨fun a b => le_total (key a) (key b)⟩
  haveI : IsTrans α (fun a b => key a ≤ key b) :=
    ⟨fun _ _ _ h1 h2 => le_trans h1 h2⟩
  haveI : IsAntisymm α (fun a b => key a < key b) :=
    ⟨fun a b h1 h2 => absurd (lt_trans h1 h2) (lt_irrefl _)⟩
  have hperm : (l1.insertionSort (fun a b => key a ≤ key b)).Perm
      (l2.insertionSort (fun a b => key a ≤ key b)) :=
    (List.perm_insertionSort _ l1).trans
      (hp.trans (List.perm_insertionSort _ l2).symm)
  have hnd1 : ((l1.insertionSort (fun a b => key a ≤ key b)).map key).Nodup :=
    (((List.perm_insertionSort _ l1).map key).nodup_iff).mpr hnd
  have hnd2 : ((l2.insertionSort (fun a b => key a ≤ key b)).map key).Nodup :=
    (((List.perm_insertionSort _ l2).map key).nodup_iff).mpr
      ((hp.map key).nodup_iff.mp hnd)
  exact List.eq_of_perm_of_sorted hperm
    (pairwise_lt_of_le_nodup (List.sorted_insertionSort _ l1) hnd1)
    (pairwise_lt_of_le_nodup (List.sorted_insertionSort _ l2) hnd2)

/-- The id of a summary row is the integer parse of the course id, whether
or not the course was found. -/
theorem summarize_course_id_eq (env : Env) (cid : String) :
    (summarize_course env cid).id = pyInt cid := by
  unfold summarize_course
  cases env.getCourse cid <;> rfl

/-- The id of a detailed result is the integer parse of the course id,
whether or not the course was found. -/
theorem get_detailed_student_info_id_eq (env : Env) (cid : String) :
    (get_detailed_student_info env cid).id = pyInt cid := by
  unfold get_detailed_student_info
  cases env.getCourse cid <;> rfl

/-! ## Pagination chain lemmas -/

theorem Chain.body_arr {server : Server} {resp : Resp}
    {pages : List (List JVal)} (h : Chain server resp pages) :
    ∃ xs rest, pages = xs :: rest ∧ resp.body = .arr xs := by
  cases h with
  | last r xs hb hl => exact ⟨xs, [], rfl, hb⟩
  | step r xs url rest hb hl hs hr => exact ⟨xs, rest, rfl, hb⟩

theorem fetchLoop_chain {server : Server} {resp : Resp}
    {pages : List (List JVal)} (hchain : Chain server resp pages) :
    ∀ (acc : List JVal) (fuel : Nat), pages.length ≤ fuel →
    fetchLoop server fuel resp acc = .ok (acc ++ pages.tail.flatten) := by
  induction hchain with
  | last r xs hbody hlink =>
    intro acc fuel hfuel
    match fuel, hfuel with
    | fuel + 1, _ => simp [fetchLoop, hlink]
  | step r xs url rest hbody hlink hstatus hrest ih =>
    intro acc fuel hfuel
    match fuel, hfuel with
    | fuel + 1, hfuel =>
      obtain ⟨ys, rest2, hrest_eq, hbody2⟩ := hrest.body_arr
      have hlen : rest.length ≤ fuel := by
        simpa using Nat.le_of_succ_le_succ hfuel
      have := ih (acc ++ ys) fuel hlen
      simp only [fetchLoop, hlink, if_neg hstatus, hbody2, pyExtend, this]
      subst hrest_eq
      simp

/-! ## Claim C3 -/

theorem pyIsDigitChar_ascii {c : Char} (h : c.toNat < 128) :
    pyIsDigitChar c = c.isDigit := by
  have h1 : c ≠ '¹' := by
    intro hc
    subst hc
    exact absurd h (by decide)
  have h2 : c ≠ '²' := by
    intro hc
    subst hc
    exact absurd h (by decide)
  have h3 : c ≠ '³' := by
    intro hc
    subst hc
    exact absurd h (by decide)
  simp [pyIsDigitChar, h1, h2, h3]

theorem allDigit_congr : ∀ (l : List Char),
    (∀ c ∈ l, c.toNat < 128) →
    l.all pyIsDigitChar = l.all Char.isDigit := by
  intro l h
  induction l with
  | nil => rfl
  | cons c cs ih =>
    simp only [List.all_cons,
      pyIsDigitChar_ascii (h c (List.mem_cons_self c cs)),
      ih (fun x hx => h x (List.mem_cons_of_mem c hx))]

theorem pyIsDigit_ascii {t : String} (h : ∀ c ∈ t.data, c.toNat < 128) :
    pyIsDigit t = matchesAsciiDigits t := by
  unfold pyIsDigit matchesAsciiDigits
  rw [allDigit_congr t.data h]

/-- C3 (amended): `parse_course_ids` returns exactly the delimited tokens
accepted by Python's `str.isdigit` — duplicates preserved (witnessed by the
token-count conjunct) — and `str.isdigit` coincides with the regex
`^[0-9]+$` exactly on ASCII tokens. -/
theorem parse_course_ids_spec (raw : String) :
    parse_course_ids raw = (courseIdTokens raw).filter pyIsDigit ∧
    (∀ t : String, (parse_course_ids raw).count t =
      if pyIsDigit t then (courseIdTokens raw).count t else 0) ∧
    ((∀ t ∈ courseIdTokens raw, ∀ c ∈ t.data, c.toNat < 128) →
      parse_course_ids raw = (courseIdTokens raw).filter matchesAsciiDigits) := by
  have h1 : parse_course_ids raw = (courseIdTokens raw).filter pyIsDigit := by
    unfold parse_course_ids courseIdTokens
    by_cases h : raw = "" <;> simp [h]
  refine ⟨h1, ?_, ?_⟩
  · intro t
    rw [h1]
    by_cases hp : pyIsDigit t
    · rw [if_pos hp]
      exact List.count_filter hp
    · rw [if_neg hp]
      refine List.count_eq_zero.mpr ?_
      intro hmem
      exact hp (List.of_mem_filter hmem)
  · intro hascii
    rw [h1]
    exact List.filter_congr (fun t ht => pyIsDigit_ascii (hascii t ht))

/-- C3 counterexample: the superscript-two token survives `parse_course_ids`
(Python `str.isdigit` accepts it) although it does not match `^[0-9]+$`, so
the output is not the `^[0-9]+$`-filtered token list. -/
theorem parse_course_ids_counterexample :
    parse_course_ids "²" = ["²"] ∧ matchesAsciiDigits "²" = false ∧
    parse_course_ids "²" ≠ (courseIdTokens "²").filter matchesAsciiDigits := by
  exact ⟨by decide, by decide, by decide⟩

/-- C3 witness: duplicates are preserved and on ASCII input the output is
exactly the `^[0-9]+$` tokens. -/
theorem parse_course_ids_spec_witness :
    parse_course_ids "12, ab, 12" = ["12", "12"] ∧
    (parse_course_ids "12, ab, 12").count "12" = 2 ∧
    parse_course_ids "12, ab, 12" =
      (courseIdTokens "12, ab, 12").filter matchesAsciiDigits := by
  have h := parse_course_ids_spec "12, ab, 12"
  refine ⟨by decide, ?_, h.2.2 (by decide)⟩
  rw [h.2.1 "12"]
  decide

/-! ## Claim C4 -/

/-- A server whose endpoint answers with a one-item first page linking to a
second page that answers 404. -/
def cexServer404 : Server := fun url _ =>
  if url = "/page2" then ⟨404, .null, none⟩
  else ⟨200, .arr [.num 1], some "/page2"⟩

/-- C4 counterexample: the fetch receives an HTTP 404 response (on the
followed `next` page) yet raises `HTTPError` instead of returning the
not-found marker — only the initial response is checked for 404. -/
theorem fetch404_counterexample :
    (cexServer404 "/page2" []).status = 404 ∧
    fetch_canvas_api cexServer404 5 "/enrollments" [] =
      .error (.httpError 404) := by
  exact ⟨rfl, rfl⟩

/-- C4 (amended): when the *initial* response has status 404,
`fetch_canvas_api` returns the distinguished not-found marker (distinct from
an empty collection by type) and never raises; a 404 arriving on a followed
pagination page instead raises. -/
theorem fetch404_initial (server : Server) (fuel : Nat) (endpoint : String)
    (params : List (String × String))
    (h : (server endpoint params).status = 404) :
    fetch_canvas_api server fuel endpoint params = .ok none := by
  simp [fetch_canvas_api, h]

/-- A server answering 404 everywhere. -/
def server404 : Server := fun _ _ => ⟨404, .null, none⟩

/-- C4 witness: a mock 404 endpoint yields the not-found marker. -/
theorem fetch404_initial_witness :
    fetch_canvas_api server404 3 "/courses/99999" [] = .ok none :=
  fetch404_initial server404 3 "/courses/99999" [] rfl

/-! ## Claim C5 -/

/-- C5: when the initial response is no error and its body is a JSON array
heading a chain of pages linked by `next`, the fetch follows the chain to
its end and returns the concatenation of all pages in page order. -/
theorem fetch_paginated_concat (server : Server) (endpoint : String)
    (params : List (String × String)) (pages : List (List JVal)) (fuel : Nat)
    (h404 : (server endpoint params).status ≠ 404)
    (herr : ¬(400 ≤ (server endpoint params).status ∧
      (server endpoint params).status < 600))
    (hchain : Chain server (server endpoint params) pages)
    (hfuel : pages.length ≤ fuel) :
    fetch_canvas_api server fuel endpoint params =
      .ok (some (.arr pages.flatten)) := by
  obtain ⟨xs, rest, hpages, hbody⟩ := hchain.body_arr
  have hloop := fetchLoop_chain hchain xs fuel hfuel
  simp only [fetch_canvas_api, if_neg h404, if_neg herr, hbody, hloop]
  subst hpages
  simp [Except.map]

/-- A server serving three pages of two items each, linked via `next`. -/
def exPagedServer : Server := fun url _ =>
  if url = "/page2" then ⟨200, .arr [.num 3, .num 4], some "/page3"⟩
  else if url = "/page3" then ⟨200, .arr [.num 5, .num 6], none⟩
  else ⟨200, .arr [.num 1, .num 2], some "/page2"⟩

/-- C5 witness: 3 pages of 2 items each yield one sequence of 6 items in
page order. -/
theorem fetch_paginated_concat_witness :
    fetch_canvas_api exPagedServer 3 "/items" [] =
      .ok (some (.arr [.num 1, .num 2, .num 3, .num 4, .num 5, .num 6])) := by
  have hchain : Chain exPagedServer (exPagedServer "/items" [])
      [[.num 1, .num 2], [.num 3, .num 4], [.num 5, .num 6]] := by
    refine .step _ _ "/page2" _ rfl rfl (by decide) ?_
    refine .step _ _ "/page3" _ rfl rfl (by decide) ?_
    exact .last _ _ rfl rfl
  exact fetch_paginated_concat exPagedServer "/items" [] _ 3
    (by decide) (by decide) hchain (by decide)

/-! ## Claim C6 -/

/-- C6: a course lookup answering the not-found marker yields, without any
failure, the sentinel summary row: id is the integer parse of the input
string, the course name is the literal `NO ENCONTRADO`, the program name is
empty, all three counters are zero, the role string is empty. -/
theorem summarize_notFound (env : Env) (cid : String)
    (h : env.getCourse cid = none) :
    summarize_course env cid =
      { id := pyInt cid, curso := "NO ENCONTRADO", diplomado := ""
        activos := 0, completados := 0, otrosEstados := 0,
        otrosRoles := "" } := by
  unfold summarize_course
  rw [h]

/-- An environment where every lookup answers the not-found marker. -/
def emptyEnv : Env :=
  { getCourse := fun _ => none, getAccount := fun _ => none
    getEnrollments := fun _ => none, getEnrollmentsWithUser := fun _ => none }

/-- C6 witness: nonexistent id `99999` yields the sentinel row. -/
theorem summarize_notFound_witness :
    summarize_course emptyEnv "99999" =
      { id := 99999, curso := "NO ENCONTRADO", diplomado := ""
        activos := 0, completados := 0, otrosEstados := 0,
        otrosRoles := "" } := by
  rw [summarize_notFound emptyEnv "99999" rfl]
  decide

/-! ## Claim C2 -/

theorem resolveAccountName_congr {env1 env2 : Env}
    (ha : env1.getAccount = env2.getAccount) (c : Course) :
    resolveAccountName env1 c = resolveAccountName env2 c := by
  unfold resolveAccountName
  rw [ha]

/-- Removing an enrollment skipped by `summarize_course` from the served
enrollment list leaves the whole summary row unchanged. -/
theorem summarize_course_congr_skip {env1 env2 : Env} (cid : String)
    {xs ys : List Enrollment} {e : Enrollment} (h : summExcluded e = true)
    (hc : env1.getCourse = env2.getCourse)
    (ha : env1.getAccount = env2.getAccount)
    (he : env1.getEnrollments cid = some (xs ++ e :: ys))
    (he2 : env2.getEnrollments cid = some (xs ++ ys)) :
    summarize_course env1 cid = summarize_course env2 cid := by
  unfold summarize_course
  rw [hc, he, he2]
  cases hcc : env2.getCourse cid with
  | none => rfl
  | some course =>
    simp only [Option.getD_some]
    rw [resolveAccountName_congr ha, summarizeEnrollments_skip h]

/-- Removing an enrollment skipped by `get_detailed_student_info` from the
served enrollment list leaves the whole detailed result unchanged. -/
theorem detailed_info_congr_skip {env1 env2 : Env} (cid : String)
    {xs ys : List Enrollment} {e : Enrollment} (h : detailedExcluded e = true)
    (hc : env1.getCourse = env2.getCourse)
    (ha : env1.getAccount = env2.getAccount)
    (hu : env1.getEnrollmentsWithUser cid = some (xs ++ e :: ys))
    (hu2 : env2.getEnrollmentsWithUser cid = some (xs ++ ys)) :
    get_detailed_student_info env1 cid = get_detailed_student_info env2 cid := by
  unfold get_detailed_student_info
  rw [hc, hu, hu2]
  cases hcc : env2.getCourse cid with
  | none => rfl
  | some course =>
    simp only [Option.getD_some]
    rw [resolveAccountName_congr ha, detailedBuckets_skip h]

/-- Removing an enrollment skipped by `build_enrollments_detail_df` from the
one course list where it appears leaves every per-course step unchanged. -/
theorem detailStep_congr_skip {env1 env2 : Env} (cid : String)
    {xs ys : List Enrollment} {e : Enrollment}
    (h : detailRowExcluded e = true)
    (hc : env1.getCourse = env2.getCourse)
    (ha : env1.getAccount = env2.getAccount)
    (hu : env1.getEnrollmentsWithUser cid = some (xs ++ e :: ys))
    (hu2 : env2.getEnrollmentsWithUser cid = some (xs ++ ys))
    (henv : ∀ c, c ≠ cid →
      env1.getEnrollmentsWithUser c = env2.getEnrollmentsWithUser c) :
    detailStep env1 = detailStep env2 := by
  funext st c
  unfold detailStep
  rw [hc, ha]
  by_cases hcid : c = cid
  · subst hcid
    rw [hu, hu2]
    simp only [Option.getD_some]
    rw [detailRowsFor_skip h]
  · rw [henv c hcid]

/-- C2: an enrollment whose user's display name case-insensitively equals
`Test Student`, or whose type is `StudentViewEnrollment`, contributes to no
counter of `summarize_course`, to no row of `build_enrollments_detail_df`,
and to no bucket of `get_detailed_student_info`, regardless of enrollment
type: serving the enrollment list without it changes none of the three
outputs, and the per-enrollment loops skip it outright. -/
theorem excluded_contributes_nothing (env1 env2 : Env) (cid : String)
    (xs ys : List Enrollment) (e : Enrollment) (h : specExcluded e)
    (hc : env1.getCourse = env2.getCourse)
    (ha : env1.getAccount = env2.getAccount)
    (he : env1.getEnrollments cid = some (xs ++ e :: ys))
    (he2 : env2.getEnrollments cid = some (xs ++ ys))
    (hu : env1.getEnrollmentsWithUser cid = some (xs ++ e :: ys))
    (hu2 : env2.getEnrollmentsWithUser cid = some (xs ++ ys))
    (henv : ∀ c, c ≠ cid →
      env1.getEnrollmentsWithUser c = env2.getEnrollmentsWithUser c) :
    summarize_course env1 cid = summarize_course env2 cid ∧
    get_detailed_student_info env1 cid = get_detailed_student_info env2 cid ∧
    (∀ ids : List String, build_enrollments_detail_df env1 ids =
      build_enrollments_detail_df env2 ids) ∧
    summarizeEnrollments (xs ++ e :: ys) = summarizeEnrollments (xs ++ ys) ∧
    (∀ (idc : Int) (cn dn : String),
      detailRowsFor idc cn dn (xs ++ e :: ys) =
        detailRowsFor idc cn dn (xs ++ ys)) ∧
    detailedBuckets (xs ++ e :: ys) = detailedBuckets (xs ++ ys) := by
  refine ⟨summarize_course_congr_skip cid
      (summExcluded_of_specExcluded h) hc ha he he2,
    detailed_info_congr_skip cid
      (detailedExcluded_of_specExcluded h) hc ha hu hu2,
    ?_,
    summarizeEnrollments_skip (summExcluded_of_specExcluded h) xs ys,
    fun idc cn dn => detailRowsFor_skip
      (detailRowExcluded_of_specExcluded h) idc cn dn xs ys,
    detailedBuckets_skip (detailedExcluded_of_specExcluded h) xs ys⟩
  intro ids
  unfold build_enrollments_detail_df
  rw [detailStep_congr_skip cid (detailRowExcluded_of_specExcluded h)
    hc ha hu hu2 henv]

/-- A teacher enrollment held by a user named `TEST Student`. -/
def exTestStudent : Enrollment :=
  { type := some "TeacherEnrollment", role := none
    enrollment_state := some "active"
    user := some ⟨some 5, some "TEST Student", none, none, none⟩
    course_section_id := none, id := none
    created_at := none, updated_at := none, last_activity_at := none }

/-- An ordinary active student enrollment. -/
def exStudentActive : Enrollment :=
  { type := some "StudentEnrollment", role := none
    enrollment_state := some "active"
    user := some ⟨some 1, some "Ana", some "ana@x", none, none⟩
    course_section_id := none, id := none
    created_at := none, updated_at := none, last_activity_at := none }

/-- The C2 example environment serving course `1` with an ordinary active
student followed by a teacher enrollment of the synthetic `TEST Student`. -/
def exEnvC2A : Env :=
  { getCourse := fun cid => if cid = "1" then some ⟨some "C1", none⟩ else none
    getAccount := fun _ => none
    getEnrollments := fun cid =>
      if cid = "1" then some [exStudentActive, exTestStudent] else none
    getEnrollmentsWithUser := fun cid =>
      if cid = "1" then some [exStudentActive, exTestStudent] else none }

/-- The same environment with the `TEST Student` enrollment absent. -/
def exEnvC2B : Env :=
  { getCourse := fun cid => if cid = "1" then some ⟨some "C1", none⟩ else none
    getAccount := fun _ => none
    getEnrollments := fun cid =>
      if cid = "1" then some [exStudentActive] else none
    getEnrollmentsWithUser := fun cid =>
      if cid = "1" then some [exStudentActive] else none }

/-- C2 witness: a `TEST Student` teacher enrollment changes no summary row,
no detailed result and no detail DataFrame, and the summary counts only the
one ordinary student. -/
theorem excluded_contributes_nothing_witness :
    summarize_course exEnvC2A "1" = summarize_course exEnvC2B "1" ∧
    get_detailed_student_info exEnvC2A "1" =
      get_detailed_student_info exEnvC2B "1" ∧
    build_enrollments_detail_df exEnvC2A ["1"] =
      build_enrollments_detail_df exEnvC2B ["1"] ∧
    (summarize_course exEnvC2A "1").activos = 1 ∧
    (summarize_course exEnvC2A "1").otrosRoles = "" := by
  have h := excluded_contributes_nothing exEnvC2A exEnvC2B "1"
    [exStudentActive] [] exTestStudent
    (Or.inl ⟨"TEST Student", rfl, by decide⟩) rfl rfl rfl rfl rfl rfl
    (fun c hc => by simp [exEnvC2A, exEnvC2B, hc])
  exact ⟨h.1, h.2.1, h.2.2.1 ["1"], by decide, by decide⟩

/-! ## Claims C1 and C10 -/

/-- C1: with the course found, `summarize_course` classifies each
non-excluded enrollment exactly as the spec states — `StudentEnrollment`
into exactly one of the three mutually exclusive state counters, every other
type into the per-role counter keyed by role falling back to type and then
to `Otro` (`roleName`) — and renders the role counter. -/
theorem summarize_classification (env : Env) (cid : String) (course : Course)
    (h : env.getCourse cid = some course) :
    (summarize_course env cid).activos =
      ((env.getEnrollments cid).getD []).countP isCountedActive ∧
    (summarize_course env cid).completados =
      ((env.getEnrollments cid).getD []).countP isCountedCompleted ∧
    (summarize_course env cid).otrosEstados =
      ((env.getEnrollments cid).getD []).countP isCountedOther ∧
    (∀ r : String,
      roleCount r
          (summarizeEnrollments ((env.getEnrollments cid).getD [])).roles =
        ((env.getEnrollments cid).getD []).countP (isCountedRole r)) ∧
    (summarize_course env cid).otrosRoles =
      renderRoles
        (summarizeEnrollments ((env.getEnrollments cid).getD [])).roles := by
  unfold summarize_course
  rw [h]
  refine ⟨?_, ?_, ?_, ?_, rfl⟩
  · simpa using
      summFold_active ((env.getEnrollments cid).getD []) ⟨0, 0, 0, []⟩
  · simpa using
      summFold_completed ((env.getEnrollments cid).getD []) ⟨0, 0, 0, []⟩
  · simpa using
      summFold_other ((env.getEnrollments cid).getD []) ⟨0, 0, 0, []⟩
  · intro r
    simpa [roleCount] using
      summFold_roleCount ((env.getEnrollments cid).getD []) r ⟨0, 0, 0, []⟩

/-- The remaining enrollments of the C1 example: completed, invited, and the
excluded synthetic `StudentViewEnrollment`. -/
def exStudentCompleted : Enrollment :=
  { type := some "StudentEnrollment", role := none
    enrollment_state := some "completed"
    user := some ⟨some 2, some "Bea", none, none, none⟩
    course_section_id := none, id := none
    created_at := none, updated_at := none, last_activity_at := none }

def exStudentInvited : Enrollment :=
  { type := some "StudentEnrollment", role := none
    enrollment_state := some "invited"
    user := some ⟨some 3, some "Carl", none, none, none⟩
    course_section_id := none, id := none
    created_at := none, updated_at := none, last_activity_at := none }

def exTeacher : Enrollment :=
  { type := some "TeacherEnrollment", role := none
    enrollment_state := some "active"
    user := some ⟨some 4, some "Dora", none, none, none⟩
    course_section_id := none, id := none
    created_at := none, updated_at := none, last_activity_at := none }

def exStudentView : Enrollment :=
  { type := some "StudentViewEnrollment", role := none
    enrollment_state := some "active"
    user := some ⟨some 6, some "Test Student", none, none, none⟩
    course_section_id := none, id := none
    created_at := none, updated_at := none, last_activity_at := none }

/-- The C1 example environment: course `7` with one `StudentEnrollment` in
each of the states active, completed, invited, one `TeacherEnrollment`
without an explicit role, and one `StudentViewEnrollment`. -/
def exEnvC1 : Env :=
  { getCourse := fun cid =>
      if cid = "7" then some ⟨some "Curso Demo", none⟩ else none
    getAccount := fun _ => none
    getEnrollments := fun cid =>
      if cid = "7" then
        some [exStudentActive, exStudentCompleted, exStudentInvited,
          exTeacher, exStudentView]
      else none
    getEnrollmentsWithUser := fun _ => none }

/-- C1 witness: the example list yields `Activos=1`, `Completados=1`,
`Otros Estados=1`, `Otros Roles="TeacherEnrollment: 1"` (role label fallen
back to the type), with the `StudentViewEnrollment` excluded entirely. -/
theorem summarize_classification_witness :
    (summarize_course exEnvC1 "7").activos =
      ((exEnvC1.getEnrollments "7").getD []).countP isCountedActive ∧
    (summarize_course exEnvC1 "7").activos = 1 ∧
    (summarize_course exEnvC1 "7").completados = 1 ∧
    (summarize_course exEnvC1 "7").otrosEstados = 1 ∧
    (summarize_course exEnvC1 "7").otrosRoles = "TeacherEnrollment: 1" := by
  have h := summarize_classification exEnvC1 "7" ⟨some "Curso Demo", none⟩ rfl
  exact ⟨h.1, by decide, by decide, by decide, by decide⟩

/-- C10: the summary row conserves enrollments — the three state counters
plus the sum of the per-role counts equal the number of enrollments
surviving the Test Student / `StudentViewEnrollment` filter, each counted
exactly once; the rendered role string is exactly the role counter. -/
theorem summarize_conservation (env : Env) (cid : String) (course : Course)
    (h : env.getCourse cid = some course) :
    (summarize_course env cid).activos +
        (summarize_course env cid).completados +
        (summarize_course env cid).otrosEstados +
        sumCounts
          (summarizeEnrollments ((env.getEnrollments cid).getD [])).roles =
      ((env.getEnrollments cid).getD []).countP
        (fun e => !summExcluded e) ∧
    (summarize_course env cid).otrosRoles =
      renderRoles
        (summarizeEnrollments ((env.getEnrollments cid).getD [])).roles := by
  unfold summarize_course
  rw [h]
  refine ⟨?_, rfl⟩
  simpa [sumCounts] using
    summFold_total ((env.getEnrollments cid).getD []) ⟨0, 0, 0, []⟩

/-- C10 witness: on the C1 example, 1 + 1 + 1 + 1 counted of the 4
non-excluded enrollments. -/
theorem summarize_conservation_witness :
    (summarize_course exEnvC1 "7").activos +
        (summarize_course exEnvC1 "7").completados +
        (summarize_course exEnvC1 "7").otrosEstados +
        sumCounts
          (summarizeEnrollments
            ((exEnvC1.getEnrollments "7").getD [])).roles =
      ((exEnvC1.getEnrollments "7").getD []).countP
        (fun e => !summExcluded e) ∧
    ((exEnvC1.getEnrollments "7").getD []).countP
        (fun e => !summExcluded e) = 4 :=
  ⟨(summarize_conservation exEnvC1 "7" ⟨some "Curso Demo", none⟩ rfl).1,
    by decide⟩

/-! ## Claim C7 -/

/-- C7 (amended): both batch runners always return their result set sorted
ascending by numeric course id; the output is furthermore independent of the
completion order whenever the input ids have pairwise-distinct numeric
values (two tokens with the same numeric value, such as `"10"` and `"010"`,
can tie and then the stable sort leaks the completion order). -/
theorem process_courses_sorted_deterministic :
    (∀ (env : Env) (order : List String),
      (process_courses env order).Pairwise (fun r s => r.id ≤ s.id)) ∧
    (∀ (env : Env) (order : List String),
      (process_detailed_courses env order).Pairwise
        (fun r s => r.id ≤ s.id)) ∧
    (∀ (env : Env) (ids order : List String), order.Perm ids →
      (ids.map pyInt).Nodup →
      process_courses env order = process_courses env ids) ∧
    (∀ (env : Env) (ids order : List String), order.Perm ids →
      (ids.map pyInt).Nodup →
      process_detailed_courses env order =
        process_detailed_courses env ids) := by
  refine ⟨?_, ?_, ?_, ?_⟩
  · intro env order
    exact List.sorted_insertionSort _ _
  · intro env order
    exact List.sorted_insertionSort _ _
  · intro env ids order hperm hnd
    unfold process_courses
    have hfun : (SummaryRow.id ∘ summarize_course env) = pyInt :=
      funext (fun cid => summarize_course_id_eq env cid)
    apply insertionSort_eq_of_perm_of_nodup SummaryRow.id
    · exact hperm.map (summarize_course env)
    · rw [List.map_map, hfun]
      exact ((hperm.map pyInt).nodup_iff).mpr hnd
  · intro env ids order hperm hnd
    unfold process_detailed_courses
    have hfun : (DetailedResult.id ∘ get_detailed_student_info env) = pyInt :=
      funext (fun cid => get_detailed_student_info_id_eq env cid)
    apply insertionSort_eq_of_perm_of_nodup DetailedResult.id
    · exact hperm.map (get_detailed_student_info env)
    · rw [List.map_map, hfun]
      exact ((hperm.map pyInt).nodup_iff).mpr hnd

/-- An environment where the tokens `10` and `010` (equal numeric value)
name two distinct courses. -/
def cexEnvC7 : Env :=
  { getCourse := fun cid =>
      if cid = "10" then some ⟨some "A", none⟩
      else if cid = "010" then some ⟨some "B", none⟩ else none
    getAccount := fun _ => none
    getEnrollments := fun _ => some []
    getEnrollmentsWithUser := fun _ => none }

/-- C7 counterexample: for the id list containing `"10"` and `"010"`, two
completion orders of the same tasks produce different outputs — the stable
sort keeps the completion order of the two rows that tie on numeric id — so
the output is not deterministic regardless of completion order. -/
theorem process_courses_counterexample :
    (["10", "010"] : List String).Perm ["010", "10"] ∧
    process_courses cexEnvC7 ["10", "010"] ≠
      process_courses cexEnvC7 ["010", "10"] := by
  exact ⟨by decide, by decide⟩

/-- C7 witness: ids 30, 10, 20 yield rows ordered 10, 20, 30 under either
completion order, for both batch runners. -/
theorem process_courses_sorted_witness :
    (process_courses emptyEnv ["30", "10", "20"]).Pairwise
      (fun r s => r.id ≤ s.id) ∧
    process_courses emptyEnv ["10", "30", "20"] =
      process_courses emptyEnv ["30", "10", "20"] ∧
    process_detailed_courses emptyEnv ["10", "30", "20"] =
      process_detailed_courses emptyEnv ["30", "10", "20"] ∧
    (process_courses emptyEnv ["30", "10", "20"]).map SummaryRow.id =
      [10, 20, 30] ∧
    (process_detailed_courses emptyEnv ["30", "10", "20"]).map
      DetailedResult.id = [10, 20, 30] :=
  ⟨process_courses_sorted_deterministic.1 emptyEnv ["30", "10", "20"],
    process_courses_sorted_deterministic.2.2.1 emptyEnv ["30", "10", "20"]
      ["10", "30", "20"] (by decide) (by decide),
    process_courses_sorted_deterministic.2.2.2 emptyEnv ["30", "10", "20"]
      ["10", "30", "20"] (by decide) (by decide),
    by decide, by decide⟩

/-! ## Claims C8 and C9 -/

/-- C8: a non-empty detail DataFrame has its rows sorted ascending by the
key (numeric course id, enrollment type, state, user name) — missing values
ordered last — and its row index renumbered from zero. -/
theorem detail_df_sorted (env : Env) (ids : List String)
    (h : (build_enrollments_detail_df env ids).rows ≠ []) :
    (build_enrollments_detail_df env ids).rows.Pairwise
      (fun r s => detailKey r ≤ detailKey s) ∧
    (build_enrollments_detail_df env ids).index =
      List.range (build_enrollments_detail_df env ids).rows.length := by
  cases hemp : ((ids.foldl (detailStep env) (⟨[], []⟩, [])).2 :
      List DetailRow).isEmpty with
  | true =>
    exfalso
    apply h
    simp [build_enrollments_detail_df, hemp]
  | false =>
    constructor
    · simp only [build_enrollments_detail_df, hemp, Bool.false_eq_true,
        if_false]
      exact List.sorted_insertionSort _ _
    · simp [build_enrollments_detail_df, hemp]

/-- An environment with one user-expanded enrollment in each of the two
courses `1` and `2`. -/
def exEnvC8 : Env :=
  { getCourse := fun cid =>
      if cid = "1" then some ⟨some "C1", none⟩
      else if cid = "2" then some ⟨some "C2", none⟩ else none
    getAccount := fun _ => none
    getEnrollments := fun _ => none
    getEnrollmentsWithUser := fun cid =>
      if cid = "1" then some [exStudentActive]
      else if cid = "2" then some [exStudentCompleted] else none }

/-- C8 witness: two courses requested in reverse order produce a two-row
frame, sorted and indexed 0, 1. -/
theorem detail_df_sorted_witness :
    (build_enrollments_detail_df exEnvC8 ["2", "1"]).rows.Pairwise
      (fun r s => detailKey r ≤ detailKey s) ∧
    (build_enrollments_detail_df exEnvC8 ["2", "1"]).index =
      List.range
        (build_enrollments_detail_df exEnvC8 ["2", "1"]).rows.length ∧
    (build_enrollments_detail_df exEnvC8 ["2", "1"]).rows.map
      DetailRow.id_curso = [1, 2] := by
  have h := detail_df_sorted exEnvC8 ["2", "1"] (by decide)
  exact ⟨h.1, h.2, by decide⟩

/-- C9: whenever the aggregation produces zero rows, the exported
`Matriculas` sheet still carries the declared 15 columns and zero rows. -/
theorem matriculas_empty_schema (env : Env) (ids : List String)
    (h : (build_enrollments_detail_df env ids).rows = []) :
    matriculasSheet (build_enrollments_detail_df env ids) =
      { columns := ["id_curso", "Curso", "Diplomado", "user_id", "nombre",
          "login_id", "sis_user_id", "tipo_matricula", "rol", "estado",
          "seccion_id", "enrollment_id", "created_at", "updated_at",
          "last_activity_at"], rows := [] } ∧
    detailCols.length = 15 := by
  constructor
  · simp [matriculasSheet, h, detailCols]
  · decide

/-- C9 witness: an id whose course and enrollments are absent yields zero
rows, and the exported sheet still has the 15-column schema. -/
theorem matriculas_empty_schema_witness :
    (build_enrollments_detail_df emptyEnv ["1"]).rows = [] ∧
    (matriculasSheet (build_enrollments_detail_df emptyEnv ["1"]) =
      { columns := ["id_curso", "Curso", "Diplomado", "user_id", "nombre",
          "login_id", "sis_user_id", "tipo_matricula", "rol", "estado",
          "seccion_id", "enrollment_id", "created_at", "updated_at",
          "last_activity_at"], rows := [] } ∧
    detailCols.length = 15) :=
  ⟨by decide, matriculas_empty_schema emptyEnv ["1"] (by decide)⟩
